import Mathlib

/-!
A shallow embedding of `src/lavaMase/filters.py`: the nine effect-unit
classes (Equalizer, Karaoke, Timescale, Tremolo, Vibrato, Rotation,
Distortion, ChannelMix, LowPass) and the `Filters` aggregate, with its
`set_filters`, `reset`, hydration (`Filters.__init__` with `data`) and
serialization (`Filters.__call__`) operations.

Modelling choices, fixed once for the whole file:
  * Numeric field values (Python floats) are rationals (`Val := ℚ`): the code
    only stores and compares them, never computes with them, and Python's
    float truthiness test `not v` is `v == 0.0`, which is `v = 0` on ℚ.
  * A Python `dict` with a fixed set of recognized string keys is a record
    whose fields are `Option`-valued: `none` = key absent, `some x` = key
    present with value `x`.  A stored value of a sparse unit is itself
    `Option Val` (a field may be explicitly set to Python `None`), so a
    payload field has type `Option (Option Val)`.
  * Keyword-argument packs (`**options`) are records of the same shape over
    the caller-facing (snake_case) names declared by the corresponding
    TypedDict; `options.get(k, d)` is `Option.getD`, and `payload.get(k)`
    (absent and stored-`None` both give `None`) is `Option.join`.
  * The Equalizer's internal `dict[int, EqualizerPayload]` always has keys
    exactly `0..14` in ascending insertion order (created that way by every
    constructor, and `_set` only overwrites existing keys in place), so it is
    a function `Fin 15 → EqBand`; `dict.values()` in key order is
    `List.ofFn`.  The stored entries keep their own `band` field, so the
    invariant "the entry at slot `i` carries band `i`" is stated and proved,
    not baked into the type.
  * `Filters.__call__` builds the ten-key payload dict in a fixed literal
    order and then deletes every key whose value is Python-falsy; the result
    is a record with one `Option` field per top-level wire key.
-/

/-- Numeric field values: Python floats, modelled as rationals. -/
abbrev Val := ℚ

/-- One equalizer band entry, the wire dict `{"band": int, "gain": float}`. -/
structure EqBand where
  band : Int
  gain : Val
deriving DecidableEq, Repr

/-- The Equalizer's internal table `dict[int, EqualizerPayload]`, whose keys
are always exactly `0..14` in order (see the header comment). -/
abbrev EqTable := Fin 15 → EqBand

/-- The Karaoke wire payload `{"level"?, "monoLevel"?, "filterBand"?,
"filterWidth"?}`. -/
structure KaraokePayload where
  level : Option (Option Val)
  monoLevel : Option (Option Val)
  filterBand : Option (Option Val)
  filterWidth : Option (Option Val)
deriving DecidableEq, Repr

/-- `KaraokeOptions`: the caller-facing keyword arguments of `Karaoke.set`. -/
structure KaraokeOptions where
  level : Option (Option Val)
  mono_level : Option (Option Val)
  filter_band : Option (Option Val)
  filter_width : Option (Option Val)
deriving DecidableEq, Repr

/-- The Timescale wire payload `{"speed"?, "pitch"?, "rate"?}`; caller-facing
names coincide with wire names, and `Timescale.set` is a plain `dict.update`,
so the same record is also its options pack. -/
structure TimescalePayload where
  speed : Option (Option Val)
  pitch : Option (Option Val)
  rate : Option (Option Val)
deriving DecidableEq, Repr

/-- The Tremolo wire payload `{"frequency"?, "depth"?}` (also its options
pack: `Tremolo.set` is a plain `dict.update`). -/
structure TremoloPayload where
  frequency : Option (Option Val)
  depth : Option (Option Val)
deriving DecidableEq, Repr

/-- The Vibrato wire payload `{"frequency"?, "depth"?}` (also its options
pack: `Vibrato.set` is a plain `dict.update`). -/
structure VibratoPayload where
  frequency : Option (Option Val)
  depth : Option (Option Val)
deriving DecidableEq, Repr

/-- The Rotation wire payload `{"rotationHz"?}`. -/
structure RotationPayload where
  rotationHz : Option (Option Val)
deriving DecidableEq, Repr

/-- `RotationOptions`: the caller-facing keyword arguments of
`Rotation.set`. -/
structure RotationOptions where
  rotation_hz : Option (Option Val)
deriving DecidableEq, Repr

/-- The Distortion wire payload with its eight optional fields. -/
structure DistortionPayload where
  sinOffset : Option (Option Val)
  sinScale : Option (Option Val)
  cosOffset : Option (Option Val)
  cosScale : Option (Option Val)
  tanOffset : Option (Option Val)
  tanScale : Option (Option Val)
  offset : Option (Option Val)
  scale : Option (Option Val)
deriving DecidableEq, Repr

/-- The caller-facing keyword arguments `Distortion.set` actually reads
(`options.get("sin_offset")` and so on). -/
structure DistortionOptions where
  sin_offset : Option (Option Val)
  sin_scale : Option (Option Val)
  cos_offset : Option (Option Val)
  cos_scale : Option (Option Val)
  tan_offset : Option (Option Val)
  tan_scale : Option (Option Val)
  offset : Option (Option Val)
  scale : Option (Option Val)
deriving DecidableEq, Repr

/-- The ChannelMix wire payload with its four mix factors. -/
structure ChannelMixPayload where
  leftToLeft : Option (Option Val)
  leftToRight : Option (Option Val)
  rightToLeft : Option (Option Val)
  rightToRight : Option (Option Val)
deriving DecidableEq, Repr

/-- `ChannelMixOptions`: the caller-facing keyword arguments of
`ChannelMix.set`. -/
structure ChannelMixOptions where
  left_to_left : Option (Option Val)
  left_to_right : Option (Option Val)
  right_to_left : Option (Option Val)
  right_to_right : Option (Option Val)
deriving DecidableEq, Repr

/-- The LowPass wire payload `{"smoothing"?}` (also its options pack:
`LowPass.set` is a plain `dict.update`). -/
structure LowPassPayload where
  smoothing : Option (Option Val)
deriving DecidableEq, Repr

/-- The empty dict `{}` a sparse unit holds after `reset`. -/
def KaraokePayload.empty : KaraokePayload := ⟨none, none, none, none⟩

/-- The empty options pack: `set()` called with no keyword arguments. -/
def KaraokeOptions.empty : KaraokeOptions := ⟨none, none, none, none⟩

/-- The empty dict `{}` a sparse unit holds after `reset`. -/
def TimescalePayload.empty : TimescalePayload := ⟨none, none, none⟩

/-- The empty dict `{}` a sparse unit holds after `reset`. -/
def TremoloPayload.empty : TremoloPayload := ⟨none, none⟩

/-- The empty dict `{}` a sparse unit holds after `reset`. -/
def VibratoPayload.empty : VibratoPayload := ⟨none, none⟩

/-- The empty dict `{}` a sparse unit holds after `reset`. -/
def RotationPayload.empty : RotationPayload := ⟨none⟩

/-- The empty options pack: `set()` called with no keyword arguments. -/
def RotationOptions.empty : RotationOptions := ⟨none⟩

/-- The empty dict `{}` a sparse unit holds after `reset`. -/
def DistortionPayload.empty : DistortionPayload :=
  ⟨none, none, none, none, none, none, none, none⟩

/-- The empty options pack: `set()` called with no keyword arguments. -/
def DistortionOptions.empty : DistortionOptions :=
  ⟨none, none, none, none, none, none, none, none⟩

/-- The empty dict `{}` a sparse unit holds after `reset`. -/
def ChannelMixPayload.empty : ChannelMixPayload := ⟨none, none, none, none⟩

/-- The empty options pack: `set()` called with no keyword arguments. -/
def ChannelMixOptions.empty : ChannelMixOptions := ⟨none, none, none, none⟩

/-- The empty dict `{}` a sparse unit holds after `reset`. -/
def LowPassPayload.empty : LowPassPayload := ⟨none⟩

/-- `Karaoke.set`: rebuilds the whole payload dict, each wire key getting the
supplied value when present in `options` and `self._payload.get(wireKey)`
otherwise (lines 155-179 of `filters.py`). -/
def Karaoke.set (o : KaraokeOptions) (p : KaraokePayload) : KaraokePayload :=
  { level := some (o.level.getD p.level.join),
    monoLevel := some (o.mono_level.getD p.monoLevel.join),
    filterBand := some (o.filter_band.getD p.filterBand.join),
    filterWidth := some (o.filter_width.getD p.filterWidth.join) }

/-- `Karaoke.reset`: `self._payload = {}`. -/
def Karaoke.reset (_p : KaraokePayload) : KaraokePayload := KaraokePayload.empty

/-- `Timescale.set`: `self._payload.update(options)` — supplied keys
overwrite, absent keys are untouched. -/
def Timescale.set (o : TimescalePayload) (p : TimescalePayload) :
    TimescalePayload :=
  { speed := o.speed.or p.speed,
    pitch := o.pitch.or p.pitch,
    rate := o.rate.or p.rate }

/-- `Timescale.reset`: `self._payload = {}`. -/
def Timescale.reset (_p : TimescalePayload) : TimescalePayload :=
  TimescalePayload.empty

/-- `Tremolo.set`: `self._payload.update(options)`. -/
def Tremolo.set (o : TremoloPayload) (p : TremoloPayload) : TremoloPayload :=
  { frequency := o.frequency.or p.frequency,
    depth := o.depth.or p.depth }

/-- `Tremolo.reset`: `self._payload = {}`. -/
def Tremolo.reset (_p : TremoloPayload) : TremoloPayload := TremoloPayload.empty

/-- `Vibrato.set`: `self._payload.update(options)`. -/
def Vibrato.set (o : VibratoPayload) (p : VibratoPayload) : VibratoPayload :=
  { frequency := o.frequency.or p.frequency,
    depth := o.depth.or p.depth }

/-- `Vibrato.reset`: `self._payload = {}`. -/
def Vibrato.reset (_p : VibratoPayload) : VibratoPayload := VibratoPayload.empty

/-- `Rotation.set`: rebuilds the payload dict with its single wire key. -/
def Rotation.set (o : RotationOptions) (p : RotationPayload) : RotationPayload :=
  { rotationHz := some (o.rotation_hz.getD p.rotationHz.join) }

/-- `Rotation.reset`: `self._payload = {}`. -/
def Rotation.reset (_p : RotationPayload) : RotationPayload :=
  RotationPayload.empty

/-- `Distortion.set`: rebuilds the whole eight-key payload dict. -/
def Distortion.set (o : DistortionOptions) (p : DistortionPayload) :
    DistortionPayload :=
  { sinOffset := some (o.sin_offset.getD p.sinOffset.join),
    sinScale := some (o.sin_scale.getD p.sinScale.join),
    cosOffset := some (o.cos_offset.getD p.cosOffset.join),
    cosScale := some (o.cos_scale.getD p.cosScale.join),
    tanOffset := some (o.tan_offset.getD p.tanOffset.join),
    tanScale := some (o.tan_scale.getD p.tanScale.join),
    offset := some (o.offset.getD p.offset.join),
    scale := some (o.scale.getD p.scale.join) }

/-- `Distortion.reset`: `self._payload = {}`. -/
def Distortion.reset (_p : DistortionPayload) : DistortionPayload :=
  DistortionPayload.empty

/-- `ChannelMix.set`: rebuilds the whole four-key payload dict. -/
def ChannelMix.set (o : ChannelMixOptions) (p : ChannelMixPayload) :
    ChannelMixPayload :=
  { leftToLeft := some (o.left_to_left.getD p.leftToLeft.join),
    leftToRight := some (o.left_to_right.getD p.leftToRight.join),
    rightToLeft := some (o.right_to_left.getD p.rightToLeft.join),
    rightToRight := some (o.right_to_right.getD p.rightToRight.join) }

/-- `ChannelMix.reset`: `self._payload = {}`. -/
def ChannelMix.reset (_p : ChannelMixPayload) : ChannelMixPayload :=
  ChannelMixPayload.empty

/-- `LowPass.set`: `self._payload.update(options)`. -/
def LowPass.set (o : LowPassPayload) (p : LowPassPayload) : LowPassPayload :=
  { smoothing := o.smoothing.or p.smoothing }

/-- `LowPass.reset`: `self._payload = {}`. -/
def LowPass.reset (_p : LowPassPayload) : LowPassPayload := LowPassPayload.empty

/-- The default-zeroed table `{n: {"band": n, "gain": 0.0} for n in
range(15)}`. -/
def eqDefault : EqTable := fun n => ⟨(n : Int), 0⟩

/-- One iteration of the loop in `Equalizer._set`: skip an entry whose band is
outside `0..14`, otherwise store the entry at key `band`. -/
def bandStep (tbl : EqTable) (eq : EqBand) : EqTable :=
  if h : eq.band > 14 ∨ eq.band < 0 then tbl
  else Function.update tbl ⟨eq.band.toNat, by omega⟩ eq

/-- `Equalizer._set`: fold the input list over a fresh default table. -/
def Equalizer.setBands (payload : List EqBand) : EqTable :=
  payload.foldl bandStep eqDefault

/-- `Equalizer.__init__`: hydrate from the list only when it is truthy (non-
`None`, non-empty) and exactly 15 entries long; otherwise all-default. -/
def Equalizer.init (payload : Option (List EqBand)) : EqTable :=
  match payload with
  | some l => if l ≠ [] ∧ l.length = 15 then Equalizer.setBands l else eqDefault
  | none => eqDefault

/-- `Equalizer.set`: `bands` absent or `None` resets to all-default; a
provided list goes through `_set` with no length requirement. -/
def Equalizer.set (bands : Option (List EqBand)) (_t : EqTable) : EqTable :=
  match bands with
  | none => eqDefault
  | some l => Equalizer.setBands l

/-- `Equalizer.reset`: a fresh all-default table. -/
def Equalizer.reset (_t : EqTable) : EqTable := eqDefault

/-- `Equalizer.payload`: the internal `dict[int, EqualizerPayload]` as an
association list in key order (a copy in the source; the model is pure). -/
def Equalizer.payloadView (t : EqTable) : List (Int × EqBand) :=
  List.ofFn fun i : Fin 15 => ((i : Int), t i)

/-- `list(self._equalizer._payload.values())`: the table's values in key
order, as serialization emits them. -/
def eqList (t : EqTable) : List EqBand := List.ofFn t

/-- The `Filters` aggregate state: a volume plus one instance of every unit
(each unit instance's whole state is its payload; the Equalizer's is its
table). -/
structure Filters where
  volume : Option Val
  equalizer : EqTable
  karaoke : KaraokePayload
  timescale : TimescalePayload
  tremolo : TremoloPayload
  vibrato : VibratoPayload
  rotation : RotationPayload
  distortion : DistortionPayload
  channelMix : ChannelMixPayload
  lowPass : LowPassPayload
deriving DecidableEq

/-- The `FiltersOptions` TypedDict: the keyword arguments `set_filters`,
`_set_with_reset` and `from_filters` accept.  Its unit-typed keys carry unit
instances, i.e. in this model their states.  Note its declared keys are
`channel_mix` and `low_pass` (snake_case). -/
structure FiltersOptions where
  volume : Option Val
  equalizer : Option EqTable
  karaoke : Option KaraokePayload
  timescale : Option TimescalePayload
  tremolo : Option TremoloPayload
  vibrato : Option VibratoPayload
  rotation : Option RotationPayload
  distortion : Option DistortionPayload
  channel_mix : Option ChannelMixPayload
  low_pass : Option LowPassPayload
  reset : Option Bool
deriving DecidableEq

/-- The options pack with no keyword argument supplied. -/
def FiltersOptions.empty : FiltersOptions :=
  ⟨none, none, none, none, none, none, none, none, none, none, none⟩

/-- The top-level wire payload (`FilterPayload`): one optional slot per key,
in the fixed order `Filters.__call__` builds its dict, so that record
equality is byte-for-byte equality of the emitted JSON object. -/
structure FilterPayload where
  volume : Option Val
  equalizer : Option (List EqBand)
  karaoke : Option KaraokePayload
  timescale : Option TimescalePayload
  tremolo : Option TremoloPayload
  vibrato : Option VibratoPayload
  rotation : Option RotationPayload
  distortion : Option DistortionPayload
  channelMix : Option ChannelMixPayload
  lowPass : Option LowPassPayload
deriving DecidableEq, Repr

/-- The empty wire payload `{}`. -/
def FilterPayload.empty : FilterPayload :=
  ⟨none, none, none, none, none, none, none, none, none, none⟩

/-- The state `Filters.__init__` builds before (and without) `data`: volume
`None`, every unit fresh and empty/default. -/
def Filters.default : Filters :=
  { volume := none
    equalizer := eqDefault
    karaoke := KaraokePayload.empty
    timescale := TimescalePayload.empty
    tremolo := TremoloPayload.empty
    vibrato := VibratoPayload.empty
    rotation := RotationPayload.empty
    distortion := DistortionPayload.empty
    channelMix := ChannelMixPayload.empty
    lowPass := LowPassPayload.empty }

/-- `Filters._create_from`: populate volume and all nine units from a wire
payload, defaulting each absent key. -/
def Filters.createFrom (data : FilterPayload) : Filters :=
  { volume := data.volume
    equalizer := Equalizer.init data.equalizer
    karaoke := data.karaoke.getD KaraokePayload.empty
    timescale := data.timescale.getD TimescalePayload.empty
    tremolo := data.tremolo.getD TremoloPayload.empty
    vibrato := data.vibrato.getD VibratoPayload.empty
    rotation := data.rotation.getD RotationPayload.empty
    distortion := data.distortion.getD DistortionPayload.empty
    channelMix := data.channelMix.getD ChannelMixPayload.empty
    lowPass := data.lowPass.getD LowPassPayload.empty }

/-- `Filters.__init__(data=...)`: the defaults are overwritten by
`_create_from` only when `data` is truthy (a non-empty dict). -/
def Filters.hydrate (data : FilterPayload) : Filters :=
  if data = FilterPayload.empty then Filters.default else Filters.createFrom data

/-- `Filters._set_with_reset`: every field set from the options, falling back
to the field's empty/default (never the prior state).  This branch reads the
declared snake_case keys `channel_mix` / `low_pass`. -/
def Filters.set_with_reset (o : FiltersOptions) : Filters :=
  { volume := o.volume
    equalizer := o.equalizer.getD eqDefault
    karaoke := o.karaoke.getD KaraokePayload.empty
    timescale := o.timescale.getD TimescalePayload.empty
    tremolo := o.tremolo.getD TremoloPayload.empty
    vibrato := o.vibrato.getD VibratoPayload.empty
    rotation := o.rotation.getD RotationPayload.empty
    distortion := o.distortion.getD DistortionPayload.empty
    channelMix := o.channel_mix.getD ChannelMixPayload.empty
    lowPass := o.low_pass.getD LowPassPayload.empty }

/-- `Filters.set_filters`: with `reset` falsy, each field takes the supplied
value when its key is present and the prior value otherwise.  The source's
last two lines read `filters.get("channelMix", ...)` and
`filters.get("lowPass", ...)`: those camelCase keys are not keys of the
declared `FiltersOptions` TypedDict (which has `channel_mix` / `low_pass`),
so the lookup always takes the default, i.e. the prior value. -/
def Filters.set_filters (o : FiltersOptions) (f : Filters) : Filters :=
  if o.reset.getD false then Filters.set_with_reset o
  else
    { volume := o.volume.or f.volume
      equalizer := o.equalizer.getD f.equalizer
      karaoke := o.karaoke.getD f.karaoke
      timescale := o.timescale.getD f.timescale
      tremolo := o.tremolo.getD f.tremolo
      vibrato := o.vibrato.getD f.vibrato
      rotation := o.rotation.getD f.rotation
      distortion := o.distortion.getD f.distortion
      channelMix := f.channelMix
      lowPass := f.lowPass }

/-- `Filters._reset` / `Filters.reset`: every field back to its
empty/default value. -/
def Filters.resetOp (_f : Filters) : Filters := Filters.default

/-- The `volume` property setter: `self._volume = value`. -/
def Filters.setVolume (v : Val) (f : Filters) : Filters :=
  { f with volume := some v }

/-- `Filters.__call__`: build the ten-key payload, then delete every key
whose value is Python-falsy (`None`, `0.0` for the volume float, the empty
list for the equalizer — impossible, it has 15 values — and the empty dict
for each sparse unit). -/
def Filters.serialize (f : Filters) : FilterPayload :=
  { volume :=
      match f.volume with
      | some v => if v = 0 then none else some v
      | none => none
    equalizer := if eqList f.equalizer = [] then none else some (eqList f.equalizer)
    karaoke := if f.karaoke = KaraokePayload.empty then none else some f.karaoke
    timescale :=
      if f.timescale = TimescalePayload.empty then none else some f.timescale
    tremolo := if f.tremolo = TremoloPayload.empty then none else some f.tremolo
    vibrato := if f.vibrato = VibratoPayload.empty then none else some f.vibrato
    rotation := if f.rotation = RotationPayload.empty then none else some f.rotation
    distortion :=
      if f.distortion = DistortionPayload.empty then none else some f.distortion
    channelMix :=
      if f.channelMix = ChannelMixPayload.empty then none else some f.channelMix
    lowPass := if f.lowPass = LowPassPayload.empty then none else some f.lowPass }

/-- The equalizer-table invariant every table the code builds satisfies: the
entry stored at slot `i` carries band index `i`. -/
def EqTableInv (t : EqTable) : Prop := ∀ i : Fin 15, (t i).band = (i : Int)

instance : DecidablePred EqTableInv := fun t =>
  inferInstanceAs (Decidable (∀ i : Fin 15, (t i).band = (i : Int)))

/-- A concrete aggregate state used to instantiate hypotheses at witnesses:
volume explicitly `0.0`, a configured timescale, a karaoke payload that holds
an explicit `None`, everything else default. -/
def sampleFilters : Filters :=
  { Filters.default with
    volume := some 0
    timescale := ⟨some (some 2), none, none⟩
    karaoke := ⟨some none, none, some (some 3), none⟩ }

/-! ## Helper lemmas -/

theorem eqList_length (t : EqTable) : (eqList t).length = 15 := by
  simp [eqList]

theorem eqList_ne_nil (t : EqTable) : eqList t ≠ [] := by
  intro h
  have := congrArg List.length h
  simp [eqList] at this

theorem bandStep_inv (t : EqTable) (e : EqBand) (h : EqTableInv t) :
    EqTableInv (bandStep t e) := by
  intro i
  unfold bandStep
  split
  case isTrue => exact h i
  case isFalse hf =>
    rw [Function.update]
    split
    case isTrue heq => subst heq; simp; omega
    case isFalse => exact h i

theorem foldl_bandStep_inv (l : List EqBand) (t : EqTable) (h : EqTableInv t) :
    EqTableInv (l.foldl bandStep t) := by
  induction l generalizing t with
  | nil => exact h
  | cons e l ih => exact ih _ (bandStep_inv t e h)

theorem eqDefault_inv : EqTableInv eqDefault := fun _ => rfl

theorem setBands_inv (l : List EqBand) : EqTableInv (Equalizer.setBands l) :=
  foldl_bandStep_inv l eqDefault eqDefault_inv

theorem bandStep_get (acc : EqTable) (e : EqBand) (i : Fin 15) :
    bandStep acc e i = if e.band = (i : Int) then e else acc i := by
  have hi : (i : Nat) < 15 := i.isLt
  unfold bandStep
  split
  case isTrue hc =>
    have hne : ¬ e.band = (i : Int) := by omega
    simp [hne]
  case isFalse hc =>
    simp only [Function.update_apply]
    by_cases hb : e.band = (i : Int)
    · have hidx : i = ⟨e.band.toNat, by omega⟩ := by
        apply Fin.ext
        simp
        omega
      rw [if_pos hidx, if_pos hb]
    · have hidx : i ≠ ⟨e.band.toNat, by omega⟩ := by
        intro hE
        apply hb
        have := congrArg (fun j : Fin 15 => (j : Nat)) hE
        simp at this
        omega
      rw [if_neg hidx, if_neg hb]

theorem finRange15 :
    List.finRange 15 = [0, 1, 2, 3, 4, 5, 6, 7, 8, 9, 10, 11, 12, 13, 14] := by
  decide

theorem eqList_expand (t : EqTable) :
    eqList t = [t 0, t 1, t 2, t 3, t 4, t 5, t 6, t 7, t 8, t 9, t 10, t 11,
      t 12, t 13, t 14] := by
  rw [eqList, List.ofFn_eq_map, finRange15]
  rfl

theorem setBands_eqList (t : EqTable) (h : EqTableInv t) :
    Equalizer.setBands (eqList t) = t := by
  have hb : ∀ i : Fin 15, (t i).band = (i : Int) := h
  funext i
  rw [eqList_expand, Equalizer.setBands]
  simp only [List.foldl_cons, List.foldl_nil, bandStep_get, hb]
  fin_cases i <;> rfl

theorem getD_slot {α : Type} [DecidableEq α] (p emp : α) :
    (if p = emp then (none : Option α) else some p).getD emp = p := by
  by_cases h : p = emp <;> simp [h]

theorem createFrom_serialize (f : Filters) (h : EqTableInv f.equalizer) :
    Filters.createFrom (Filters.serialize f) =
      { f with volume := (Filters.serialize f).volume } := by
  have he : (Filters.serialize f).equalizer = some (eqList f.equalizer) := by
    simp [Filters.serialize, eqList_ne_nil f.equalizer]
  simp only [Filters.createFrom]
  congr 1
  · rw [he, Equalizer.init,
      if_pos ⟨eqList_ne_nil f.equalizer, eqList_length f.equalizer⟩]
    exact setBands_eqList f.equalizer h
  · show (Filters.serialize f).karaoke.getD KaraokePayload.empty = f.karaoke
    simp [Filters.serialize, getD_slot]
  · show (Filters.serialize f).timescale.getD TimescalePayload.empty = f.timescale
    simp [Filters.serialize, getD_slot]
  · show (Filters.serialize f).tremolo.getD TremoloPayload.empty = f.tremolo
    simp [Filters.serialize, getD_slot]
  · show (Filters.serialize f).vibrato.getD VibratoPayload.empty = f.vibrato
    simp [Filters.serialize, getD_slot]
  · show (Filters.serialize f).rotation.getD RotationPayload.empty = f.rotation
    simp [Filters.serialize, getD_slot]
  · show (Filters.serialize f).distortion.getD DistortionPayload.empty = f.distortion
    simp [Filters.serialize, getD_slot]
  · show (Filters.serialize f).channelMix.getD ChannelMixPayload.empty = f.channelMix
    simp [Filters.serialize, getD_slot]
  · show (Filters.serialize f).lowPass.getD LowPassPayload.empty = f.lowPass
    simp [Filters.serialize, getD_slot]

theorem serialize_volume_irrelevant (f : Filters) :
    Filters.serialize { f with volume := (Filters.serialize f).volume } =
      Filters.serialize f := by
  cases hv : f.volume with
  | none => simp [Filters.serialize, hv]
  | some v =>
    by_cases h0 : v = 0
    · simp [Filters.serialize, hv, h0]
    · simp [Filters.serialize, hv, h0]

theorem serialize_ne_empty (f : Filters) :
    Filters.serialize f ≠ FilterPayload.empty := by
  intro hE
  have h2 := congrArg FilterPayload.equalizer hE
  simp [Filters.serialize, eqList_ne_nil f.equalizer, FilterPayload.empty] at h2

/-! ## Claims -/

/-- C4: for every aggregate state (its equalizer table carrying, as every
table the code builds does, band index `i` at slot `i`), hydrating a fresh
aggregate from `serialize`'s output and serializing again reproduces the
original `serialize` output exactly. -/
theorem C4_serialize_hydrate_roundtrip (f : Filters) (h : EqTableInv f.equalizer) :
    Filters.serialize (Filters.hydrate (Filters.serialize f)) =
      Filters.serialize f := by
  rw [Filters.hydrate, if_neg (serialize_ne_empty f), createFrom_serialize f h,
    serialize_volume_irrelevant]

/-- C4 witness: the round trip at a concrete state (volume `0.0`, a
configured timescale, a karaoke field holding an explicit `None`). -/
theorem C4_witness :
    Filters.serialize (Filters.hydrate (Filters.serialize sampleFilters)) =
      Filters.serialize sampleFilters :=
  C4_serialize_hydrate_roundtrip sampleFilters (by decide)

/-- C3 counterexample: the claim says a freshly constructed default chain
serializes to the empty payload `{}`; in the code the equalizer key survives
compaction (its value is a 15-entry list, which is truthy). -/
theorem C3_counterexample :
    Filters.serialize Filters.default ≠ FilterPayload.empty := by
  decide

/-- C3 amended: `serialize()` omits every top-level key whose value is
Python-falsy, but the equalizer's value is always a 15-entry list and is
therefore never omitted: the default chain serializes to
`{"equalizer": [the 15 default bands]}`, not to `{}`. -/
theorem C3_amended :
    Filters.serialize Filters.default =
      { FilterPayload.empty with equalizer := some (eqList eqDefault) } ∧
    ∀ f : Filters, (Filters.serialize f).equalizer = some (eqList f.equalizer) := by
  constructor
  · decide
  · intro f
    simp [Filters.serialize, eqList_ne_nil f.equalizer]

/-- C7 counterexample: the claim says every unit's `reset` leaves an empty
`payload()`; the Equalizer's `reset` leaves the 15-entry all-default table,
whose payload mapping is not empty. -/
theorem C7_counterexample :
    Equalizer.payloadView (Equalizer.reset eqDefault) ≠ [] := by
  decide

/-- C7 amended: for the eight sparse units, `reset()` followed by `payload()`
yields the empty mapping; the Equalizer's `reset()` instead restores the
all-default table, whose payload mapping has 15 entries. -/
theorem C7_amended :
    (∀ p, Karaoke.reset p = KaraokePayload.empty) ∧
    (∀ p, Timescale.reset p = TimescalePayload.empty) ∧
    (∀ p, Tremolo.reset p = TremoloPayload.empty) ∧
    (∀ p, Vibrato.reset p = VibratoPayload.empty) ∧
    (∀ p, Rotation.reset p = RotationPayload.empty) ∧
    (∀ p, Distortion.reset p = DistortionPayload.empty) ∧
    (∀ p, ChannelMix.reset p = ChannelMixPayload.empty) ∧
    (∀ p, LowPass.reset p = LowPassPayload.empty) ∧
    (∀ t, Equalizer.reset t = eqDefault) ∧
    (Equalizer.payloadView eqDefault).length = 15 := by
  refine ⟨fun _ => rfl, fun _ => rfl, fun _ => rfl, fun _ => rfl, fun _ => rfl,
    fun _ => rfl, fun _ => rfl, fun _ => rfl, fun _ => rfl, by decide⟩

/-- C8: `set_filters` with no fields and `reset=True` leaves the aggregate in
exactly the state `reset()` produces: volume unset, all nine units at their
empty/default values. -/
theorem C8_set_filters_reset_equiv (f : Filters) :
    Filters.set_filters { FiltersOptions.empty with reset := some true } f =
      Filters.resetOp f := rfl

/-- C9 counterexample: the claim says a volume explicitly set to `0.0` still
emits the volume key; the code's truthiness compaction (`if not value`) drops
it. -/
theorem C9_counterexample :
    (Filters.serialize (Filters.setVolume 0 Filters.default)).volume = none := by
  decide

theorem slot_iff {α : Type} [DecidableEq α] (a emp p : α) :
    (if a = emp then (none : Option α) else some a) = some p ↔ a = p ∧ p ≠ emp := by
  by_cases he : a = emp
  · subst he
    simp
    exact fun h => h.symm
  · simp [he]
    rintro rfl
    exact he


theorem volSlot_none (a : Option Val) :
    (match a with
      | some w => if w = 0 then (none : Option Val) else some w
      | none => none) = none ↔ a = none ∨ a = some 0 := by
  cases a with
  | none => simp
  | some w => by_cases h0 : w = 0 <;> simp [h0]

theorem volSlot_some (a : Option Val) (v : Val) :
    (match a with
      | some w => if w = 0 then (none : Option Val) else some w
      | none => none) = some v ↔ a = some v ∧ v ≠ 0 := by
  cases a with
  | none => simp
  | some w =>
    by_cases h0 : w = 0
    · subst h0
      simp
      rintro rfl
      rfl
    · simp [h0]
      rintro rfl
      exact h0

/-- C9 amended: the compaction drops a top-level key exactly when its value
is Python-falsy: `None` or a zero float for the volume, the empty mapping for
a sparse unit; the equalizer's 15-entry list is never dropped.  In particular
an explicit volume `0.0` is dropped, not emitted. -/
theorem C9_amended :
    (∀ f : Filters,
      (Filters.serialize f).volume = none ↔ f.volume = none ∨ f.volume = some 0) ∧
    (∀ (f : Filters) (v : Val),
      (Filters.serialize f).volume = some v ↔ f.volume = some v ∧ v ≠ 0) ∧
    (∀ f : Filters, (Filters.serialize f).equalizer = some (eqList f.equalizer)) ∧
    (∀ (f : Filters) (p : KaraokePayload),
      (Filters.serialize f).karaoke = some p ↔
        f.karaoke = p ∧ p ≠ KaraokePayload.empty) ∧
    (∀ (f : Filters) (p : TimescalePayload),
      (Filters.serialize f).timescale = some p ↔
        f.timescale = p ∧ p ≠ TimescalePayload.empty) ∧
    (∀ (f : Filters) (p : TremoloPayload),
      (Filters.serialize f).tremolo = some p ↔
        f.tremolo = p ∧ p ≠ TremoloPayload.empty) ∧
    (∀ (f : Filters) (p : VibratoPayload),
      (Filters.serialize f).vibrato = some p ↔
        f.vibrato = p ∧ p ≠ VibratoPayload.empty) ∧
    (∀ (f : Filters) (p : RotationPayload),
      (Filters.serialize f).rotation = some p ↔
        f.rotation = p ∧ p ≠ RotationPayload.empty) ∧
    (∀ (f : Filters) (p : DistortionPayload),
      (Filters.serialize f).distortion = some p ↔
        f.distortion = p ∧ p ≠ DistortionPayload.empty) ∧
    (∀ (f : Filters) (p : ChannelMixPayload),
      (Filters.serialize f).channelMix = some p ↔
        f.channelMix = p ∧ p ≠ ChannelMixPayload.empty) ∧
    (∀ (f : Filters) (p : LowPassPayload),
      (Filters.serialize f).lowPass = some p ↔
        f.lowPass = p ∧ p ≠ LowPassPayload.empty) := by
  refine ⟨fun f => ?_, fun f v => ?_,
    fun f => by simp [Filters.serialize, eqList_ne_nil f.equalizer],
    fun f p => slot_iff .., fun f p => slot_iff .., fun f p => slot_iff ..,
    fun f p => slot_iff .., fun f p => slot_iff .., fun f p => slot_iff ..,
    fun f p => slot_iff .., fun f p => slot_iff ..⟩
  · simpa only [Filters.serialize] using volSlot_none f.volume
  · simpa only [Filters.serialize] using volSlot_some f.volume v

/-- C1 counterexample: for a Karaoke unit with empty prior payload, `set`
with no fields yields a payload whose four wire keys are all present (each
holding `None`), not the empty prior payload the claim requires. -/
theorem C1_counterexample :
    Karaoke.set KaraokeOptions.empty KaraokePayload.empty ≠
      KaraokePayload.empty := by
  decide

/-- C1 amended: for Timescale, Tremolo, Vibrato and LowPass, `set` merges
exactly the supplied keys over the prior payload (absent keys stay absent);
for Karaoke, Rotation, Distortion and ChannelMix, each supplied field is
overwritten with its supplied value and each unsupplied field keeps its prior
looked-up value, but its wire key becomes present (holding `None` when the
field was never configured) instead of staying absent. -/
theorem C1_amended :
    (∀ o p : TimescalePayload,
      (∀ v, o.speed = some v → (Timescale.set o p).speed = some v) ∧
      (o.speed = none → (Timescale.set o p).speed = p.speed) ∧
      (∀ v, o.pitch = some v → (Timescale.set o p).pitch = some v) ∧
      (o.pitch = none → (Timescale.set o p).pitch = p.pitch) ∧
      (∀ v, o.rate = some v → (Timescale.set o p).rate = some v) ∧
      (o.rate = none → (Timescale.set o p).rate = p.rate)) ∧
    (∀ o p : TremoloPayload,
      (∀ v, o.frequency = some v → (Tremolo.set o p).frequency = some v) ∧
      (o.frequency = none → (Tremolo.set o p).frequency = p.frequency) ∧
      (∀ v, o.depth = some v → (Tremolo.set o p).depth = some v) ∧
      (o.depth = none → (Tremolo.set o p).depth = p.depth)) ∧
    (∀ o p : VibratoPayload,
      (∀ v, o.frequency = some v → (Vibrato.set o p).frequency = some v) ∧
      (o.frequency = none → (Vibrato.set o p).frequency = p.frequency) ∧
      (∀ v, o.depth = some v → (Vibrato.set o p).depth = some v) ∧
      (o.depth = none → (Vibrato.set o p).depth = p.depth)) ∧
    (∀ o p : LowPassPayload,
      (∀ v, o.smoothing = some v → (LowPass.set o p).smoothing = some v) ∧
      (o.smoothing = none → (LowPass.set o p).smoothing = p.smoothing)) ∧
    (∀ (o : KaraokeOptions) (p : KaraokePayload),
      (∀ v, o.level = some v → (Karaoke.set o p).level = some v) ∧
      (o.level = none → (Karaoke.set o p).level = some p.level.join) ∧
      (∀ v, o.mono_level = some v → (Karaoke.set o p).monoLevel = some v) ∧
      (o.mono_level = none → (Karaoke.set o p).monoLevel = some p.monoLevel.join) ∧
      (∀ v, o.filter_band = some v → (Karaoke.set o p).filterBand = some v) ∧
      (o.filter_band = none →
        (Karaoke.set o p).filterBand = some p.filterBand.join) ∧
      (∀ v, o.filter_width = some v → (Karaoke.set o p).filterWidth = some v) ∧
      (o.filter_width = none →
        (Karaoke.set o p).filterWidth = some p.filterWidth.join)) ∧
    (∀ (o : RotationOptions) (p : RotationPayload),
      (∀ v, o.rotation_hz = some v → (Rotation.set o p).rotationHz = some v) ∧
      (o.rotation_hz = none →
        (Rotation.set o p).rotationHz = some p.rotationHz.join)) ∧
    (∀ (o : DistortionOptions) (p : DistortionPayload),
      (∀ v, o.sin_offset = some v → (Distortion.set o p).sinOffset = some v) ∧
      (o.sin_offset = none →
        (Distortion.set o p).sinOffset = some p.sinOffset.join) ∧
      (∀ v, o.sin_scale = some v → (Distortion.set o p).sinScale = some v) ∧
      (o.sin_scale = none → (Distortion.set o p).sinScale = some p.sinScale.join) ∧
      (∀ v, o.cos_offset = some v → (Distortion.set o p).cosOffset = some v) ∧
      (o.cos_offset = none →
        (Distortion.set o p).cosOffset = some p.cosOffset.join) ∧
      (∀ v, o.cos_scale = some v → (Distortion.set o p).cosScale = some v) ∧
      (o.cos_scale = none → (Distortion.set o p).cosScale = some p.cosScale.join) ∧
      (∀ v, o.tan_offset = some v → (Distortion.set o p).tanOffset = some v) ∧
      (o.tan_offset = none →
        (Distortion.set o p).tanOffset = some p.tanOffset.join) ∧
      (∀ v, o.tan_scale = some v → (Distortion.set o p).tanScale = some v) ∧
      (o.tan_scale = none → (Distortion.set o p).tanScale = some p.tanScale.join) ∧
      (∀ v, o.offset = some v → (Distortion.set o p).offset = some v) ∧
      (o.offset = none → (Distortion.set o p).offset = some p.offset.join) ∧
      (∀ v, o.scale = some v → (Distortion.set o p).scale = some v) ∧
      (o.scale = none → (Distortion.set o p).scale = some p.scale.join)) ∧
    (∀ (o : ChannelMixOptions) (p : ChannelMixPayload),
      (∀ v, o.left_to_left = some v → (ChannelMix.set o p).leftToLeft = some v) ∧
      (o.left_to_left = none →
        (ChannelMix.set o p).leftToLeft = some p.leftToLeft.join) ∧
      (∀ v, o.left_to_right = some v →
        (ChannelMix.set o p).leftToRight = some v) ∧
      (o.left_to_right = none →
        (ChannelMix.set o p).leftToRight = some p.leftToRight.join) ∧
      (∀ v, o.right_to_left = some v →
        (ChannelMix.set o p).rightToLeft = some v) ∧
      (o.right_to_left = none →
        (ChannelMix.set o p).rightToLeft = some p.rightToLeft.join) ∧
      (∀ v, o.right_to_right = some v →
        (ChannelMix.set o p).rightToRight = some v) ∧
      (o.right_to_right = none →
        (ChannelMix.set o p).rightToRight = some p.rightToRight.join)) := by
  refine ⟨fun o p => ?_, fun o p => ?_, fun o p => ?_, fun o p => ?_,
    fun o p => ?_, fun o p => ?_, fun o p => ?_, fun o p => ?_⟩ <;>
    (and_intros <;>
      first
      | (intro v h
         simp [Timescale.set, Tremolo.set, Vibrato.set, LowPass.set,
           Karaoke.set, Rotation.set, Distortion.set, ChannelMix.set, h])
      | (intro h
         simp [Timescale.set, Tremolo.set, Vibrato.set, LowPass.set,
           Karaoke.set, Rotation.set, Distortion.set, ChannelMix.set, h]))

/-- C5 counterexample: the claim says hydration via `set` with a list whose
length is not 15 yields all bands defaulted; `Equalizer.set` has no length
check, so a 1-entry list sets band 0 to gain 2. -/
theorem C5_counterexample :
    Equalizer.set (some [EqBand.mk 0 2]) eqDefault ≠ eqDefault := by
  decide

/-- C5 amended: construction (`__init__`) enforces the exactly-15 rule —
absent input or a list of length ≠ 15 yields all-default — but
`Equalizer.set` applies `_set` to any provided list with no length
requirement (only `bands` absent/`None` resets to default).  In both paths
`_set` overwrites a default-zeroed table in input order, so a later entry
for the same band wins. -/
theorem C5_amended :
    Equalizer.init none = eqDefault ∧
    (∀ l : List EqBand, l.length ≠ 15 → Equalizer.init (some l) = eqDefault) ∧
    (∀ l : List EqBand, l.length = 15 →
      Equalizer.init (some l) = Equalizer.setBands l) ∧
    (∀ t, Equalizer.set none t = eqDefault) ∧
    (∀ (l : List EqBand) (t : EqTable),
      Equalizer.set (some l) t = Equalizer.setBands l) ∧
    (∀ (l : List EqBand) (e : EqBand) (h : ¬(e.band > 14 ∨ e.band < 0)),
      Equalizer.setBands (l ++ [e]) =
        Function.update (Equalizer.setBands l) ⟨e.band.toNat, by omega⟩ e) := by
  refine ⟨rfl, fun l hl => ?_, fun l hl => ?_, fun _ => rfl, fun l t => rfl,
    fun l e h => ?_⟩
  · rw [Equalizer.init, if_neg]
    rintro ⟨-, h15⟩
    exact hl h15
  · rw [Equalizer.init, if_pos ⟨fun hnil => by simp [hnil] at hl, hl⟩]
  · simp only [Equalizer.setBands, List.foldl_append, List.foldl_cons,
      List.foldl_nil]
    unfold bandStep
    rw [dif_neg h]

/-- C6: every Equalizer operation (construction, `set`, `reset`) leaves a
table with exactly one entry per band index 0..14 — the payload mapping has
exactly the 15 keys 0..14 and the entry at key `i` carries band `i` — and an
input entry whose band is out of range is dropped without disturbing any
slot. -/
theorem C6_band_table_invariant :
    (∀ p, EqTableInv (Equalizer.init p)) ∧
    (∀ b t, EqTableInv (Equalizer.set b t)) ∧
    (∀ t, EqTableInv (Equalizer.reset t)) ∧
    (∀ t, (Equalizer.payloadView t).map Prod.fst = (List.range 15).map Int.ofNat) ∧
    (∀ t, (Equalizer.payloadView t).length = 15) ∧
    (∀ (l₁ l₂ : List EqBand) (e : EqBand), e.band > 14 ∨ e.band < 0 →
      Equalizer.setBands (l₁ ++ e :: l₂) = Equalizer.setBands (l₁ ++ l₂)) := by
  refine ⟨fun p => ?_, fun b t => ?_, fun t => eqDefault_inv, fun t => ?_,
    fun t => by simp [Equalizer.payloadView], fun l₁ l₂ e h => ?_⟩
  · cases p with
    | none => exact eqDefault_inv
    | some l =>
      rw [Equalizer.init]
      split
      · exact setBands_inv l
      · exact eqDefault_inv
  · cases b with
    | none => exact eqDefault_inv
    | some l => exact setBands_inv l
  · simp [Equalizer.payloadView, List.map_ofFn]
    rfl
  · simp only [Equalizer.setBands, List.foldl_append, List.foldl_cons]
    congr 1
    unfold bandStep
    rw [dif_pos h]

/-- C10: for Karaoke, Rotation, Distortion and ChannelMix, every `set` call —
even with no fields — leaves every one of the unit's wire keys present in the
payload (`None` for a field never configured), so the payload is a non-empty
mapping and `serialize` emits the unit's key with explicit nulls instead of
compacting it away. -/
theorem C10_set_materializes_keys :
    (∀ (o : KaraokeOptions) (p : KaraokePayload),
      (Karaoke.set o p).level.isSome ∧ (Karaoke.set o p).monoLevel.isSome ∧
      (Karaoke.set o p).filterBand.isSome ∧
      (Karaoke.set o p).filterWidth.isSome ∧
      Karaoke.set o p ≠ KaraokePayload.empty ∧
      (o.level = none → p.level.join = none → (Karaoke.set o p).level = some none) ∧
      (o.mono_level = none → p.monoLevel.join = none →
        (Karaoke.set o p).monoLevel = some none) ∧
      (o.filter_band = none → p.filterBand.join = none →
        (Karaoke.set o p).filterBand = some none) ∧
      (o.filter_width = none → p.filterWidth.join = none →
        (Karaoke.set o p).filterWidth = some none)) ∧
    (∀ (o : RotationOptions) (p : RotationPayload),
      (Rotation.set o p).rotationHz.isSome ∧
      Rotation.set o p ≠ RotationPayload.empty ∧
      (o.rotation_hz = none → p.rotationHz.join = none →
        (Rotation.set o p).rotationHz = some none)) ∧
    (∀ (o : DistortionOptions) (p : DistortionPayload),
      (Distortion.set o p).sinOffset.isSome ∧ (Distortion.set o p).sinScale.isSome ∧
      (Distortion.set o p).cosOffset.isSome ∧ (Distortion.set o p).cosScale.isSome ∧
      (Distortion.set o p).tanOffset.isSome ∧ (Distortion.set o p).tanScale.isSome ∧
      (Distortion.set o p).offset.isSome ∧ (Distortion.set o p).scale.isSome ∧
      Distortion.set o p ≠ DistortionPayload.empty ∧
      (o.sin_offset = none → p.sinOffset.join = none →
        (Distortion.set o p).sinOffset = some none) ∧
      (o.sin_scale = none → p.sinScale.join = none →
        (Distortion.set o p).sinScale = some none) ∧
      (o.cos_offset = none → p.cosOffset.join = none →
        (Distortion.set o p).cosOffset = some none) ∧
      (o.cos_scale = none → p.cosScale.join = none →
        (Distortion.set o p).cosScale = some none) ∧
      (o.tan_offset = none → p.tanOffset.join = none →
        (Distortion.set o p).tanOffset = some none) ∧
      (o.tan_scale = none → p.tanScale.join = none →
        (Distortion.set o p).tanScale = some none) ∧
      (o.offset = none → p.offset.join = none →
        (Distortion.set o p).offset = some none) ∧
      (o.scale = none → p.scale.join = none →
        (Distortion.set o p).scale = some none)) ∧
    (∀ (o : ChannelMixOptions) (p : ChannelMixPayload),
      (ChannelMix.set o p).leftToLeft.isSome ∧
      (ChannelMix.set o p).leftToRight.isSome ∧
      (ChannelMix.set o p).rightToLeft.isSome ∧
      (ChannelMix.set o p).rightToRight.isSome ∧
      ChannelMix.set o p ≠ ChannelMixPayload.empty ∧
      (o.left_to_left = none → p.leftToLeft.join = none →
        (ChannelMix.set o p).leftToLeft = some none) ∧
      (o.left_to_right = none → p.leftToRight.join = none →
        (ChannelMix.set o p).leftToRight = some none) ∧
      (o.right_to_left = none → p.rightToLeft.join = none →
        (ChannelMix.set o p).rightToLeft = some none) ∧
      (o.right_to_right = none → p.rightToRight.join = none →
        (ChannelMix.set o p).rightToRight = some none)) ∧
    (∀ f : Filters, f.karaoke ≠ KaraokePayload.empty →
      (Filters.serialize f).karaoke = some f.karaoke) ∧
    (∀ f : Filters, f.rotation ≠ RotationPayload.empty →
      (Filters.serialize f).rotation = some f.rotation) ∧
    (∀ f : Filters, f.distortion ≠ DistortionPayload.empty →
      (Filters.serialize f).distortion = some f.distortion) ∧
    (∀ f : Filters, f.channelMix ≠ ChannelMixPayload.empty →
      (Filters.serialize f).channelMix = some f.channelMix) := by
  refine ⟨fun o p => ?_, fun o p => ?_, fun o p => ?_, fun o p => ?_,
    fun f h => by simp [Filters.serialize, h], fun f h => by simp [Filters.serialize, h],
    fun f h => by simp [Filters.serialize, h],
    fun f h => by simp [Filters.serialize, h]⟩ <;>
    (and_intros <;>
      first
      | (intro h1 h2
         simp only [Karaoke.set, Rotation.set, Distortion.set, ChannelMix.set, h1,
           Option.getD_none, Option.some.injEq]
         exact h2)
      | simp [Karaoke.set, Rotation.set, Distortion.set, ChannelMix.set,
          KaraokePayload.empty, RotationPayload.empty, DistortionPayload.empty,
          ChannelMixPayload.empty])

/-- C2: the claim says `set_filters` with `reset=False` replaces every
top-level field present in the partial update; for the declared
`FiltersOptions` keys `channel_mix` and `low_pass` the non-reset branch looks
up the wire-format keys `"channelMix"` / `"lowPass"` instead, so those two
supplied fields are ignored (while the reset branch honours them). -/
theorem C2_channel_mix_low_pass_ignored :
    (Filters.set_filters
        { FiltersOptions.empty with
          channel_mix := some ⟨some (some 2), none, none, none⟩
          low_pass := some ⟨some (some 3)⟩ }
        Filters.default).channelMix = ChannelMixPayload.empty ∧
    (Filters.set_filters
        { FiltersOptions.empty with
          channel_mix := some ⟨some (some 2), none, none, none⟩
          low_pass := some ⟨some (some 3)⟩ }
        Filters.default).lowPass = LowPassPayload.empty ∧
    (⟨some (some 2), none, none, none⟩ : ChannelMixPayload) ≠
      ChannelMixPayload.empty ∧
    (Filters.set_with_reset
        { FiltersOptions.empty with
          channel_mix := some ⟨some (some 2), none, none, none⟩
          low_pass := some ⟨some (some 3)⟩ }).channelMix =
      ⟨some (some 2), none, none, none⟩ ∧
    (Filters.set_with_reset
        { FiltersOptions.empty with
          channel_mix := some ⟨some (some 2), none, none, none⟩
          low_pass := some ⟨some (some 3)⟩ }).lowPass = ⟨some (some 3)⟩ := by
  refine ⟨rfl, rfl, by decide, rfl, rfl⟩
